import Mathlib

/-!
Verification development for the F1Picks prediction-scoring engine
(backend/app/scoring/algorithms.py, backend/app/scoring/service.py and the
data shapes they read).  The Python code is shallowly embedded as executable
Lean definitions:

* Python numbers (floats produced by `float(...)` and by `json.loads`) are
  modelled as exact rationals carried as integer numerator/denominator pairs
  (`Frac`).  Every denominator constructed by the embedding is positive.
  The real interpretation of a `Frac` is `Frac.toRat : ℚ`.  Python's binary
  floats differ from these exact decimals by a relative error below 2^-40,
  which never crosses any of the strict tier comparisons exercised at the
  inputs evaluated here.
* Python strings are Lean `String`s; `str.upper() / .strip() / .lower()` are
  modelled character-wise over `String.data` (ASCII case mapping, ASCII
  whitespace), which matches Python on the ASCII data the engine handles.
* Python exceptions are the `PyErr` error type threaded through `Except`.
-/

/-- Exact rational number written as an integer numerator over an integer
denominator, the embedding's stand-in for a Python float.  Operations are
chosen so that every function of the embedding is kernel-executable. -/
structure Frac where
  num : Int
  den : Int
  deriving DecidableEq

/-- Build a fraction normalising only the sign of the denominator. -/
def Frac.mk' (n d : Int) : Frac := if d < 0 then ⟨-n, -d⟩ else ⟨n, d⟩

/-- Rational value denoted by a `Frac`. -/
def Frac.toRat (f : Frac) : ℚ := (f.num : ℚ) / (f.den : ℚ)

/-- A `Frac` is well-formed when its denominator is positive; every `Frac`
produced by the embedding satisfies this. -/
def Frac.Pos (f : Frac) : Prop := 0 < f.den

instance (f : Frac) : Decidable f.Pos := by
  unfold Frac.Pos; infer_instance

def Frac.sub (a b : Frac) : Frac := ⟨a.num * b.den - b.num * a.den, a.den * b.den⟩

def Frac.fabs (a : Frac) : Frac := ⟨|a.num|, a.den⟩

def Frac.isZero (a : Frac) : Bool := a.num = 0

def Frac.div (a b : Frac) : Frac := Frac.mk' (a.num * b.den) (a.den * b.num)

def Frac.mulInt (a : Frac) (k : Int) : Frac := ⟨a.num * k, a.den⟩

/-- Strict comparison by cross multiplication (correct for positive
denominators, see `Frac.lt_iff`). -/
def Frac.lt (a b : Frac) : Bool := a.num * b.den < b.num * a.den

theorem Frac.pos_sub {a b : Frac} (ha : a.Pos) (hb : b.Pos) : (a.sub b).Pos :=
  mul_pos ha hb

theorem Frac.pos_fabs {a : Frac} (ha : a.Pos) : a.fabs.Pos := ha

theorem Frac.pos_mulInt {a : Frac} (ha : a.Pos) (k : Int) : (a.mulInt k).Pos := ha

theorem Frac.pos_div {a b : Frac} (ha : a.Pos) (hn : b.num ≠ 0) :
    (a.div b).Pos := by
  unfold Frac.div Frac.mk' Frac.Pos
  rcases lt_trichotomy b.num 0 with h | h | h
  · have : a.den * b.num < 0 := mul_neg_of_pos_of_neg ha h
    simp only [this, if_pos]
    omega
  · exact absurd h hn
  · have : 0 < a.den * b.num := mul_pos ha h
    have hnl : ¬ a.den * b.num < 0 := not_lt.mpr this.le
    simp only [hnl, if_neg]
    exact this

theorem Frac.posDen_cast {a : Frac} (ha : a.Pos) : (0 : ℚ) < (a.den : ℚ) := by
  exact_mod_cast (ha : 0 < a.den)

theorem Frac.posDen_ne {a : Frac} (ha : a.Pos) : ((a.den : ℚ)) ≠ 0 :=
  ne_of_gt (Frac.posDen_cast ha)

theorem Frac.lt_iff {a b : Frac} (ha : a.Pos) (hb : b.Pos) :
    Frac.lt a b = true ↔ a.toRat < b.toRat := by
  have ha' := Frac.posDen_cast ha
  have hb' := Frac.posDen_cast hb
  unfold Frac.lt Frac.toRat
  rw [div_lt_div_iff₀ ha' hb', decide_eq_true_eq]
  constructor
  · intro h
    exact_mod_cast h
  · intro h
    exact_mod_cast h

theorem Frac.toRat_sub {a b : Frac} (ha : a.Pos) (hb : b.Pos) :
    (a.sub b).toRat = a.toRat - b.toRat := by
  have ha' := Frac.posDen_ne ha
  have hb' := Frac.posDen_ne hb
  unfold Frac.sub Frac.toRat
  push_cast
  field_simp
  ring

theorem Frac.toRat_fabs {a : Frac} (ha : a.Pos) : a.fabs.toRat = |a.toRat| := by
  have ha' := Frac.posDen_cast ha
  unfold Frac.fabs Frac.toRat
  rw [abs_div, abs_of_pos ha']
  push_cast
  rfl

theorem Frac.toRat_mulInt {a : Frac} (ha : a.Pos) (k : Int) :
    (a.mulInt k).toRat = a.toRat * (k : ℚ) := by
  have ha' := Frac.posDen_ne ha
  unfold Frac.mulInt Frac.toRat
  push_cast
  field_simp

theorem Frac.toRat_mk' (n d : Int) : (Frac.mk' n d).toRat = (n : ℚ) / (d : ℚ) := by
  by_cases h : d < 0
  · simp only [Frac.mk', if_pos h, Frac.toRat]
    push_cast
    exact neg_div_neg_eq _ _
  · simp only [Frac.mk', if_neg h, Frac.toRat]

theorem Frac.toRat_div (a b : Frac) : (a.div b).toRat = a.toRat / b.toRat := by
  unfold Frac.div
  rw [Frac.toRat_mk']
  unfold Frac.toRat
  push_cast
  by_cases hbn : (b.num : ℚ) = 0
  · rw [hbn]
    simp
  · by_cases had : ((a.den : Int) : ℚ) = 0
    · rw [had]
      simp
    · by_cases hbd : ((b.den : Int) : ℚ) = 0
      · rw [hbd]
        simp
      · field_simp
        try ring

theorem Frac.isZero_iff {a : Frac} (ha : a.Pos) : a.isZero = true ↔ a.toRat = 0 := by
  have ha' := Frac.posDen_ne ha
  unfold Frac.isZero Frac.toRat
  rw [div_eq_zero_iff, decide_eq_true_eq]
  constructor
  · intro h
    left
    exact_mod_cast h
  · rintro (h | h)
    · exact_mod_cast h
    · exact absurd h ha'

/-- Uppercase one character the way Python `str.upper` does on ASCII data. -/
def charUpper (c : Char) : Char :=
  if 97 ≤ c.toNat && c.toNat ≤ 122 then Char.ofNat (c.toNat - 32) else c

/-- Lowercase one character the way Python `str.lower` does on ASCII data. -/
def charLower (c : Char) : Char :=
  if 65 ≤ c.toNat && c.toNat ≤ 90 then Char.ofNat (c.toNat + 32) else c

/-- Model of Python `str.upper` (ASCII case mapping). -/
def pyUpper (s : String) : String := ⟨s.data.map charUpper⟩

/-- Model of Python `str.lower` (ASCII case mapping). -/
def pyLower (s : String) : String := ⟨s.data.map charLower⟩

/-- ASCII whitespace recognised by Python's `str.strip` / `float` / `int`. -/
def isPyWs (c : Char) : Bool :=
  c = ' ' || c = '\t' || c = '\n' || c = '\r' || c.toNat = 11 || c.toNat = 12

def dropWsLeft : List Char → List Char
  | [] => []
  | c :: cs => if isPyWs c then dropWsLeft cs else c :: cs

/-- Model of Python `str.strip()` with no argument (whitespace on both ends). -/
def pyStrip (s : String) : String :=
  ⟨(dropWsLeft (dropWsLeft s.data.reverse).reverse)⟩

/-- Python exceptions that the embedded code can raise. -/
inductive PyErr where
  | valueError
  | typeError
  | attributeError
  | zeroDivisionError
  deriving DecidableEq

/-- Python value produced by `json.loads`: JSON numbers without fraction or
exponent become Python ints (`jint`), all other numbers become floats
(`jfloat`, modelled as the exact decimal read, see the header note). -/
inductive JValue where
  | jnull
  | jbool (b : Bool)
  | jint (n : Int)
  | jfloat (x : Frac)
  | jstr (s : String)
  | jarr (elems : List JValue)
  | jobj (fields : List (String × JValue))

/-- Insert a key into an object's field list the way Python dict building
does while decoding JSON: a duplicate key keeps its first position but takes
the latest value. -/
def setKey : List (String × JValue) → String → JValue → List (String × JValue)
  | [], k, v => [(k, v)]
  | (k', v') :: rest, k, v =>
      if k' = k then (k, v) :: rest else (k', v') :: setKey rest k v

/-- Model of Python `dict.get(k)` returning `None` when absent (keys are
unique by construction of `setKey`). -/
def dictGet : List (String × JValue) → String → Option JValue
  | [], _ => none
  | (k', v) :: rest, k => if k' = k then some v else dictGet rest k

def quoteChar : Char := Char.ofNat 34

def backslashChar : Char := Char.ofNat 92

def lbraceChar : Char := Char.ofNat 123

def rbraceChar : Char := Char.ofNat 125

/-- Whitespace skipped by the JSON decoder (space, tab, newline, return). -/
def isJsonWs (c : Char) : Bool := c = ' ' || c = '\t' || c = '\n' || c = '\r'

def skipJsonWs : List Char → List Char
  | [] => []
  | c :: cs => if isJsonWs c then skipJsonWs cs else c :: cs

def hexVal (c : Char) : Option Nat :=
  if '0' ≤ c && c ≤ '9' then some (c.toNat - 48)
  else if 'a' ≤ c && c ≤ 'f' then some (c.toNat - 87)
  else if 'A' ≤ c && c ≤ 'F' then some (c.toNat - 55)
  else none

/-- Body of a JSON string literal (after the opening quote), in Python's
strict mode: raw control characters are rejected, the standard escapes and
`\uXXXX` are decoded (surrogate-pair recombination is not modelled). -/
def jstringAux : Nat → List Char → List Char → Option (List Char × List Char)
  | 0, _, _ => none
  | fuel + 1, acc, cs =>
    match cs with
    | [] => none
    | c :: rest =>
      if c = quoteChar then some (acc.reverse, rest)
      else if c = backslashChar then
        match rest with
        | [] => none
        | e :: rest2 =>
          if e = quoteChar then jstringAux fuel (quoteChar :: acc) rest2
          else if e = backslashChar then jstringAux fuel (backslashChar :: acc) rest2
          else if e = '/' then jstringAux fuel ('/' :: acc) rest2
          else if e = 'b' then jstringAux fuel (Char.ofNat 8 :: acc) rest2
          else if e = 'f' then jstringAux fuel (Char.ofNat 12 :: acc) rest2
          else if e = 'n' then jstringAux fuel ('\n' :: acc) rest2
          else if e = 'r' then jstringAux fuel ('\r' :: acc) rest2
          else if e = 't' then jstringAux fuel ('\t' :: acc) rest2
          else if e = 'u' then
            match rest2 with
            | h1 :: h2 :: h3 :: h4 :: rest3 =>
              match hexVal h1, hexVal h2, hexVal h3, hexVal h4 with
              | some a, some b, some c', some d =>
                  jstringAux fuel (Char.ofNat (((a * 16 + b) * 16 + c') * 16 + d) :: acc) rest3
              | _, _, _, _ => none
            | _ => none
          else none
      else if c.toNat < 32 then none
      else jstringAux fuel (c :: acc) rest

def jstring (cs : List Char) : Option (List Char × List Char) :=
  jstringAux (cs.length + 1) [] cs

def takeDigits : List Char → (List Char × List Char)
  | [] => ([], [])
  | c :: cs =>
      if c.isDigit then
        let (ds, rest) := takeDigits cs
        (c :: ds, rest)
      else ([], c :: cs)

def digitsToNat (ds : List Char) : Nat :=
  ds.foldl (fun acc c => acc * 10 + (c.toNat - 48)) 0

/-- Optional exponent part of a JSON number. -/
def jexponent (cs : List Char) : Option (Int × List Char) :=
  match cs with
  | c :: cs1 =>
      if c = 'e' || c = 'E' then
        let signed : (Bool × List Char) := match cs1 with
          | s :: cs2 => if s = '+' then (false, cs2) else if s = '-' then (true, cs2) else (false, cs1)
          | [] => (false, [])
        match signed with
        | (neg, cs2) =>
          match takeDigits cs2 with
          | ([], _) => none
          | (ds, cs3) =>
              let e : Int := digitsToNat ds
              some (if neg then -e else e, cs3)
      else none
  | [] => none

/-- Assemble the exact value of a decimal literal: mantissa `m` with `k`
digits after the decimal point and decimal exponent `e`. -/
def fracOfParts (neg : Bool) (m : Nat) (k : Nat) (e : Int) : Frac :=
  let sm : Int := if neg then -(m : Int) else (m : Int)
  let scale : Int := e - (k : Int)
  if 0 ≤ scale then ⟨sm * (10 : Int) ^ scale.natAbs, 1⟩
  else ⟨sm, (10 : Int) ^ scale.natAbs⟩

/-- Float token of the JSON decoder. -/
def mkJFloat (neg : Bool) (m : Nat) (k : Nat) (e : Int) : JValue :=
  .jfloat (fracOfParts neg m k e)

/-- JSON number literal, following the decoder's regular expression
`-?(0|[1-9][0-9]*)(\.[0-9]+)?([eE][+-]?[0-9]+)?`; a plain integer literal
becomes a Python int, anything with a fraction or exponent a float. -/
def jnumber (cs : List Char) : Option (JValue × List Char) :=
  let signed := match cs with
    | c :: rest => if c = '-' then (true, rest) else (false, cs)
    | [] => (false, [])
  match signed with
  | (neg, cs1) =>
    match cs1 with
    | [] => none
    | c :: _ =>
      if ¬ c.isDigit then none
      else
        let ip := if c = '0' then ([c], cs1.tail) else takeDigits cs1
        match ip with
        | (ipart, cs2) =>
          let fr := match cs2 with
            | '.' :: cs3 =>
                match takeDigits cs3 with
                | ([], _) => none
                | (fpart, cs4) => some (fpart, cs4)
            | _ => none
          match fr with
          | none =>
              let ex := jexponent cs2
              match ex with
              | none =>
                  let n : Int := digitsToNat ipart
                  some (.jint (if neg then -n else n), cs2)
              | some (e, cs5) =>
                  some (mkJFloat neg (digitsToNat ipart) 0 e, cs5)
          | some (fpart, cs4) =>
              let m := digitsToNat ipart * 10 ^ fpart.length + digitsToNat fpart
              match jexponent cs4 with
              | none => some (mkJFloat neg m fpart.length 0, cs4)
              | some (e, cs5) => some (mkJFloat neg m fpart.length e, cs5)

/-- Match a literal keyword and return the rest of the input. -/
def stripPre : List Char → List Char → Option (List Char)
  | [], cs => some cs
  | p :: ps, c :: cs => if c = p then stripPre ps cs else none
  | _ :: _, [] => none

mutual

/-- One JSON value, with fuel (as in the recursive-descent decoder). -/
def jparseValue : Nat → List Char → Option (JValue × List Char)
  | 0, _ => none
  | fuel + 1, cs =>
    match cs with
    | [] => none
    | c :: rest =>
      if c = quoteChar then
        match jstring rest with
        | some (body, r) => some (.jstr ⟨body⟩, r)
        | none => none
      else if c = lbraceChar then
        let cs1 := skipJsonWs rest
        match cs1 with
        | c2 :: rest2 => if c2 = rbraceChar then some (.jobj [], rest2) else jparseMembers fuel cs1 []
        | [] => none
      else if c = '[' then
        let cs1 := skipJsonWs rest
        match cs1 with
        | c2 :: rest2 => if c2 = ']' then some (.jarr [], rest2) else jparseElems fuel cs1 []
        | [] => none
      else if c = 't' then
        match stripPre "true".data cs with
        | some r => some (.jbool true, r)
        | none => none
      else if c = 'f' then
        match stripPre "false".data cs with
        | some r => some (.jbool false, r)
        | none => none
      else if c = 'n' then
        match stripPre "null".data cs with
        | some r => some (.jnull, r)
        | none => none
      else jnumber cs

/-- Members of a JSON object after the opening brace (at least one pair). -/
def jparseMembers : Nat → List Char → List (String × JValue) → Option (JValue × List Char)
  | 0, _, _ => none
  | fuel + 1, cs, acc =>
    match cs with
    | c :: rest =>
      if c = quoteChar then
        match jstring rest with
        | some (key, cs1) =>
          match skipJsonWs cs1 with
          | ':' :: cs2 =>
            match jparseValue fuel (skipJsonWs cs2) with
            | some (v, cs3) =>
              let acc' := setKey acc ⟨key⟩ v
              match skipJsonWs cs3 with
              | ',' :: cs4 => jparseMembers fuel (skipJsonWs cs4) acc'
              | c5 :: cs5 => if c5 = rbraceChar then some (.jobj acc', cs5) else none
              | [] => none
            | none => none
          | _ => none
        | none => none
      else none
    | [] => none

/-- Elements of a JSON array after the opening bracket (at least one). -/
def jparseElems : Nat → List Char → List JValue → Option (JValue × List Char)
  | 0, _, _ => none
  | fuel + 1, cs, acc =>
    match jparseValue fuel cs with
    | some (v, cs1) =>
      match skipJsonWs cs1 with
      | ',' :: cs2 => jparseElems fuel (skipJsonWs cs2) (acc ++ [v])
      | ']' :: cs2 => some (.jarr (acc ++ [v]), cs2)
      | _ => none
    | none => none

end

/-- Model of Python `json.loads` on the engine's text values: decode one JSON
document, tolerating surrounding whitespace; `none` is `json.JSONDecodeError`.
Python's non-standard `NaN`/`Infinity` extensions are not modelled (they do
not occur in the engine's data). -/
def json_loads (s : String) : Option JValue :=
  match jparseValue (s.data.length + 2) (skipJsonWs s.data) with
  | some (v, rest) => if skipJsonWs rest = [] then some v else none
  | none => none

def natToRevDigits : Nat → Nat → List Char
  | 0, _ => []
  | _ + 1, 0 => []
  | fuel + 1, n => Char.ofNat (48 + n % 10) :: natToRevDigits fuel (n / 10)

/-- Decimal representation of a natural number. -/
def natRepr (n : Nat) : String :=
  if n = 0 then "0" else ⟨(natToRevDigits (n + 1) n).reverse⟩

/-- Model of Python `str()` on an int. -/
def intRepr (n : Int) : String :=
  if n < 0 then ⟨'-' :: (natRepr n.natAbs).data⟩ else natRepr n.natAbs

def padLeftZeros (s : List Char) (k : Nat) : List Char :=
  List.replicate (k - s.length) '0' ++ s

/-- Model of Python `str()` on a float, rendered as the exact decimal held in
the `Frac` (denominators produced by the embedding's number parsers are powers
of ten).  Python prints the shortest representation of the underlying binary
float instead; the two agree on short decimals such as the engine's lap
times, and no claim below depends on this rendering. -/
def floatRepr (f : Frac) : String :=
  let sign : List Char := if f.num < 0 then ['-'] else []
  let na := f.num.natAbs
  let d := f.den.natAbs
  if d ≤ 1 then ⟨sign ++ (natRepr na).data ++ ['.', '0']⟩
  else
    let k := (natRepr d).data.length - 1
    ⟨sign ++ (natRepr (na / d)).data ++ '.' :: padLeftZeros (natRepr (na % d)).data k⟩

def squoteChar : Char := Char.ofNat 39

mutual

/-- Model of Python `repr()` on a decoded JSON value (string escaping inside
container reprs is not modelled; no claim depends on container rendering). -/
def pyReprJ : JValue → String
  | .jnull => "None"
  | .jbool true => "True"
  | .jbool false => "False"
  | .jint n => intRepr n
  | .jfloat f => floatRepr f
  | .jstr s => ⟨squoteChar :: s.data ++ [squoteChar]⟩
  | .jarr l => ⟨'[' :: (pyReprList l).data ++ [']']⟩
  | .jobj fs => ⟨lbraceChar :: (pyReprFields fs).data ++ [rbraceChar]⟩

def pyReprList : List JValue → String
  | [] => ""
  | [v] => pyReprJ v
  | v :: rest => ⟨(pyReprJ v).data ++ ',' :: ' ' :: (pyReprList rest).data⟩

def pyReprFields : List (String × JValue) → String
  | [] => ""
  | [(k, v)] => ⟨squoteChar :: k.data ++ squoteChar :: ':' :: ' ' :: (pyReprJ v).data⟩
  | (k, v) :: rest =>
      ⟨squoteChar :: k.data ++ squoteChar :: ':' :: ' ' :: (pyReprJ v).data
        ++ ',' :: ' ' :: (pyReprFields rest).data⟩

end

/-- Model of Python `str()` on a decoded JSON value. -/
def pyStr : JValue → String
  | .jstr s => s
  | v => pyReprJ v

/-- Model of Python `bool()` (truthiness) on a decoded JSON value. -/
def pyBool : JValue → Bool
  | .jnull => false
  | .jbool b => b
  | .jint n => n != 0
  | .jfloat f => f.num != 0
  | .jstr s => s != ""
  | .jarr l => !l.isEmpty
  | .jobj fs => !fs.isEmpty

/-- Model of Python `float(str)`: optional sign, decimal digits with an
optional point on either side, optional exponent, surrounded by optional
whitespace.  `none` is `ValueError`.  The `inf`/`nan` words and underscore
digit separators are not modelled (they never occur in the engine's data). -/
def pyFloatStr (s : String) : Option Frac :=
  let cs := dropWsLeft (dropWsLeft s.data.reverse).reverse
  let signed := match cs with
    | c :: rest =>
        if c = '+' then (false, rest) else if c = '-' then (true, rest) else (false, cs)
    | [] => (false, [])
  match signed with
  | (neg, cs1) =>
    match takeDigits cs1 with
    | (ipart, cs2) =>
      let fr : Option (List Char × List Char) := match cs2 with
        | '.' :: cs3 =>
            match takeDigits cs3 with
            | (fpart, cs4) => some (fpart, cs4)
        | _ => none
      match fr with
      | none =>
          if ipart.isEmpty then none
          else
            match cs2 with
            | [] => some (fracOfParts neg (digitsToNat ipart) 0 0)
            | _ =>
              match jexponent cs2 with
              | some (e, []) => some (fracOfParts neg (digitsToNat ipart) 0 e)
              | _ => none
      | some (fpart, cs4) =>
          if ipart.isEmpty && fpart.isEmpty then none
          else
            let m := digitsToNat ipart * 10 ^ fpart.length + digitsToNat fpart
            match cs4 with
            | [] => some (fracOfParts neg m fpart.length 0)
            | _ =>
              match jexponent cs4 with
              | some (e, []) => some (fracOfParts neg m fpart.length e)
              | _ => none

/-- Model of Python `int(str)`: optional sign and decimal digits surrounded
by optional whitespace (underscore separators not modelled).  `none` is
`ValueError`. -/
def pyIntStr (s : String) : Option Int :=
  let cs := dropWsLeft (dropWsLeft s.data.reverse).reverse
  let signed := match cs with
    | c :: rest =>
        if c = '+' then (false, rest) else if c = '-' then (true, rest) else (false, cs)
    | [] => (false, [])
  match signed with
  | (neg, cs1) =>
    match takeDigits cs1 with
    | ([], _) => none
    | (ds, rest) =>
        if rest.isEmpty then
          some (if neg then -(digitsToNat ds : Int) else (digitsToNat ds : Int))
        else none

/-- Model of Python `float(x)` on a decoded JSON value. -/
def pyFloatOf : JValue → Except PyErr Frac
  | .jint n => .ok ⟨n, 1⟩
  | .jfloat f => .ok f
  | .jbool b => .ok ⟨if b then 1 else 0, 1⟩
  | .jstr s =>
      match pyFloatStr s with
      | some f => .ok f
      | none => .error .valueError
  | .jnull => .error .typeError
  | .jarr _ => .error .typeError
  | .jobj _ => .error .typeError

/-- Model of Python `int(x)` on a decoded JSON value (floats truncate toward
zero). -/
def pyIntOf : JValue → Except PyErr Int
  | .jint n => .ok n
  | .jfloat f => .ok (Int.tdiv f.num f.den)
  | .jbool b => .ok (if b then 1 else 0)
  | .jstr s =>
      match pyIntStr s with
      | some n => .ok n
      | none => .error .valueError
  | .jnull => .error .typeError
  | .jarr _ => .error .typeError
  | .jobj _ => .error .typeError

/-- ScoringAlgorithms.parse_driver_code (algorithms.py lines 366-385).
The Python code tries `json.loads`; on a JSON object it returns
`data.get("driver_code", "").upper()` — note only `.upper()`, no `.strip()`;
on another JSON value it returns `str(data).upper()` — again no `.strip()`;
only on a decode failure does it run `value.upper().strip()`.  The
surrounding `except` clause catches only `json.JSONDecodeError` and
`ValueError`, so when the `driver_code` field holds a non-string value the
`.upper()` attribute access raises an uncaught `AttributeError`. -/
def parse_driver_code (value : String) : Except PyErr String :=
  match json_loads value with
  | some (.jobj fields) =>
      match (dictGet fields "driver_code").getD (.jstr "") with
      | .jstr s => .ok (pyUpper s)
      | _ => .error .attributeError
  | some v => .ok (pyUpper (pyStr v))
  | none => .ok (pyStrip (pyUpper value))

/-- The `except (json.JSONDecodeError, ValueError)` fallback of the numeric
parsers: `float(value)` on the raw text. -/
def floatFallback (value : String) : Except PyErr Frac :=
  match pyFloatStr value with
  | some q => .ok q
  | none => .error .valueError

/-- ScoringAlgorithms.parse_time_value (algorithms.py lines 387-404): on a
JSON object, `float(data.get("time", 0))`; on another JSON value,
`float(data)`; a `ValueError` from those (or a decode failure) falls back to
`float(value)`, whose own `ValueError` propagates; a `TypeError` (e.g. the
field holds `null` or a list) propagates uncaught. -/
def parse_time_value (value : String) : Except PyErr Frac :=
  match json_loads value with
  | some (.jobj fields) =>
      match pyFloatOf ((dictGet fields "time").getD (.jint 0)) with
      | .ok q => .ok q
      | .error .valueError => floatFallback value
      | .error e => .error e
  | some v =>
      match pyFloatOf v with
      | .ok q => .ok q
      | .error .valueError => floatFallback value
      | .error e => .error e
  | none => floatFallback value

def intFallback (value : String) : Except PyErr Int :=
  match pyIntStr value with
  | some n => .ok n
  | none => .error .valueError

/-- ScoringAlgorithms.parse_lap_number (algorithms.py lines 406-423), the
integer sibling of parse_time_value; also reused for counts. -/
def parse_lap_number (value : String) : Except PyErr Int :=
  match json_loads value with
  | some (.jobj fields) =>
      match pyIntOf ((dictGet fields "lap").getD (.jint 0)) with
      | .ok n => .ok n
      | .error .valueError => intFallback value
      | .error e => .error e
  | some v =>
      match pyIntOf v with
      | .ok n => .ok n
      | .error .valueError => intFallback value
      | .error e => .error e
  | none => intFallback value

/-- The truthy words of parse_boolean_value. -/
def truthyStrings : List String := ["true", "yes", "1"]

/-- ScoringAlgorithms.parse_boolean_value (algorithms.py lines 425-442): on a
JSON object, `bool(data.get("value", False))`; on another JSON value,
`bool(data)` (Python truthiness, so e.g. any non-zero number is true); on a
decode failure, `value.lower() in ("true", "yes", "1")`.  Total: it never
raises. -/
def parse_boolean_value (value : String) : Bool :=
  match json_loads value with
  | some (.jobj fields) => pyBool ((dictGet fields "value").getD (.jbool false))
  | some v => pyBool v
  | none => truthyStrings.contains (pyLower value)

/-- PropType enum (models/pick.py lines 12-26). -/
inductive PropType where
  | RACE_WINNER
  | PODIUM_P1
  | PODIUM_P2
  | PODIUM_P3
  | FASTEST_LAP
  | POLE_POSITION
  | FIRST_RETIREMENT
  | SAFETY_CAR
  | LAP_TIME_PREDICTION
  | SECTOR_TIME_PREDICTION
  | PIT_WINDOW_START
  | PIT_WINDOW_END
  | TOTAL_PIT_STOPS
  deriving DecidableEq

/-- ScoringResult (algorithms.py lines 13-35): points, optional margin of
error, exact-match flag and a metadata dictionary (`metadata or {}`.) -/
structure ScoringResult where
  points : Int
  margin : Option Frac
  exact_match : Bool
  metadata : List (String × JValue)

/-- ScoringAlgorithms.EXACT_MATCH_POINTS (algorithms.py line 42). -/
def EXACT_MATCH_POINTS : Int := 10

/-- ScoringAlgorithms.NEAR_MATCH_POINTS looked up with default 0
(algorithms.py lines 43-47 and 103). -/
def NEAR_MATCH_POINTS (d : Int) : Int :=
  if d = 1 then 7 else if d = 2 then 4 else if d = 3 then 2 else 0

/-- ScoringAlgorithms._get_expected_position (algorithms.py lines 354-364):
dictionary over the five position props, default 1 for everything else. -/
def get_expected_position (prop_type : PropType) : Int :=
  match prop_type with
  | .RACE_WINNER => 1
  | .PODIUM_P1 => 1
  | .PODIUM_P2 => 2
  | .PODIUM_P3 => 3
  | .POLE_POSITION => 1
  | _ => 1

/-- ScoringAlgorithms.score_driver_position (algorithms.py lines 49-117).
`all_results` is the finishing-order mapping from driver code to integer
position carried in the result metadata; `.get` on it is `List.lookup`. -/
def score_driver_position (predicted_driver actual_driver : String)
    (all_results : List (String × Int)) (prop_type : PropType) : ScoringResult :=
  if predicted_driver = actual_driver then
    { points := EXACT_MATCH_POINTS
      margin := some ⟨0, 1⟩
      exact_match := true
      metadata := [("predicted_driver", .jstr predicted_driver),
                   ("actual_driver", .jstr actual_driver),
                   ("result", .jstr "exact_match")] }
  else
    match all_results.lookup predicted_driver with
    | none =>
        { points := 0
          margin := some ⟨20, 1⟩
          exact_match := false
          metadata := [("predicted_driver", .jstr predicted_driver),
                       ("actual_driver", .jstr actual_driver),
                       ("result", .jstr "dnf"),
                       ("reason", .jstr "Predicted driver did not finish")] }
    | some predicted_position =>
        let expected_position := get_expected_position prop_type
        let position_diff := |predicted_position - expected_position|
        let points := NEAR_MATCH_POINTS position_diff
        { points := points
          margin := some ⟨position_diff, 1⟩
          exact_match := false
          metadata := [("predicted_driver", .jstr predicted_driver),
                       ("actual_driver", .jstr actual_driver),
                       ("predicted_position", .jint predicted_position),
                       ("expected_position", .jint expected_position),
                       ("position_diff", .jint position_diff),
                       ("result", .jstr (if points > 0 then "near_match" else "miss"))] }

/-- ScoringAlgorithms.score_fastest_lap (algorithms.py lines 119-189).
`all_lap_times` maps driver codes to their fastest lap times. -/
def score_fastest_lap (predicted_driver actual_driver : String)
    (all_lap_times : List (String × Frac)) : ScoringResult :=
  if predicted_driver = actual_driver then
    { points := EXACT_MATCH_POINTS
      margin := some ⟨0, 1⟩
      exact_match := true
      metadata := [("predicted_driver", .jstr predicted_driver),
                   ("actual_driver", .jstr actual_driver),
                   ("result", .jstr "exact_match")] }
  else
    match all_lap_times.lookup predicted_driver, all_lap_times.lookup actual_driver with
    | some predicted_time, some actual_time =>
        let time_diff := (predicted_time.sub actual_time).fabs
        let points : Int :=
          if time_diff.lt ⟨1, 2⟩ then 7
          else if time_diff.lt ⟨1, 1⟩ then 4
          else if time_diff.lt ⟨2, 1⟩ then 2
          else 0
        { points := points
          margin := some time_diff
          exact_match := false
          metadata := [("predicted_driver", .jstr predicted_driver),
                       ("actual_driver", .jstr actual_driver),
                       ("predicted_time", .jfloat predicted_time),
                       ("actual_time", .jfloat actual_time),
                       ("time_diff", .jfloat time_diff),
                       ("result", .jstr (if points > 0 then "near_match" else "miss"))] }
    | _, _ =>
        { points := 0
          margin := none
          exact_match := false
          metadata := [("predicted_driver", .jstr predicted_driver),
                       ("actual_driver", .jstr actual_driver),
                       ("result", .jstr "no_data")] }

/-- ScoringAlgorithms.score_lap_time (algorithms.py lines 191-235): the
percentage error `abs(predicted - actual) / actual * 100` is computed with no
guard, so `actual_time == 0` raises `ZeroDivisionError` at the division;
otherwise the percentage picks the points tier and a separate fixed
0.01-second absolute epsilon decides the exact-match flag. -/
def score_lap_time (predicted_time actual_time : Frac) : Except PyErr ScoringResult :=
  let time_diff := (predicted_time.sub actual_time).fabs
  if actual_time.isZero then .error .zeroDivisionError
  else
    let percentage_error := (time_diff.div actual_time).mulInt 100
    let points : Int :=
      if percentage_error.lt ⟨1, 2⟩ then 10
      else if percentage_error.lt ⟨1, 1⟩ then 8
      else if percentage_error.lt ⟨2, 1⟩ then 6
      else if percentage_error.lt ⟨3, 1⟩ then 4
      else if percentage_error.lt ⟨5, 1⟩ then 2
      else 0
    let exact_match := time_diff.lt ⟨1, 100⟩
    .ok { points := points
          margin := some time_diff
          exact_match := exact_match
          metadata := [("predicted_time", .jfloat predicted_time),
                       ("actual_time", .jfloat actual_time),
                       ("time_diff", .jfloat time_diff),
                       ("percentage_error", .jfloat percentage_error)] }

/-- ScoringAlgorithms.score_pit_window (algorithms.py lines 237-283). -/
def score_pit_window (predicted_lap actual_lap : Int) : ScoringResult :=
  let lap_diff := |predicted_lap - actual_lap|
  let pe : Int × Bool :=
    if lap_diff = 0 then (10, true)
    else if lap_diff = 1 then (7, false)
    else if lap_diff = 2 then (5, false)
    else if lap_diff = 3 then (3, false)
    else if lap_diff ≤ 5 then (1, false)
    else (0, false)
  { points := pe.1
    margin := some ⟨lap_diff, 1⟩
    exact_match := pe.2
    metadata := [("predicted_lap", .jint predicted_lap),
                 ("actual_lap", .jint actual_lap),
                 ("lap_diff", .jint lap_diff)] }

/-- ScoringAlgorithms.score_boolean_prediction (algorithms.py lines 285-311). -/
def score_boolean_prediction (predicted_value actual_value : Bool) : ScoringResult :=
  let exact_match := predicted_value = actual_value
  { points := if exact_match then EXACT_MATCH_POINTS else 0
    margin := some (if exact_match then ⟨0, 1⟩ else ⟨1, 1⟩)
    exact_match := exact_match
    metadata := [("predicted_value", .jbool predicted_value),
                 ("actual_value", .jbool actual_value)] }

/-- ScoringAlgorithms.score_count_prediction (algorithms.py lines 313-352). -/
def score_count_prediction (predicted_count actual_count : Int) : ScoringResult :=
  let diff := |predicted_count - actual_count|
  let pe : Int × Bool :=
    if diff = 0 then (10, true)
    else if diff = 1 then (6, false)
    else if diff = 2 then (3, false)
    else (0, false)
  { points := pe.1
    margin := some ⟨diff, 1⟩
    exact_match := pe.2
    metadata := [("predicted_count", .jint predicted_count),
                 ("actual_count", .jint actual_count),
                 ("diff", .jint diff)] }

/-- EventStatus enum (models/event.py lines 22-27). -/
inductive EventStatus where
  | scheduled
  | live
  | completed
  | cancelled
  deriving DecidableEq

/-- Event row restricted to the fields the scoring engine reads
(models/event.py); uuid keys are modelled as naturals. -/
structure Event where
  id : Nat
  status : EventStatus

/-- Pick row restricted to the fields the scoring engine reads
(models/pick.py lines 28-48). -/
structure Pick where
  id : Nat
  user_id : Nat
  event_id : Nat
  prop_type : PropType
  prop_value : String

/-- The JSONB result metadata restricted to the two keys the engine's
ingestion contract defines: the finishing-order map (driver code to integer
position) and the lap-time map (driver code to seconds).  `none` at a key
models the key's absence; the service reads each with default `{}`. -/
structure ResultMeta where
  finishing_order : Option (List (String × Int))
  lap_times : Option (List (String × Frac))

/-- Result row restricted to the fields the scoring engine reads
(models/result.py lines 20-38); outer `none` metadata models a NULL (or
empty, equally falsy) JSONB payload. -/
structure Result where
  event_id : Nat
  prop_type : PropType
  actual_value : String
  result_metadata : Option ResultMeta

/-- Score row (models/score.py lines 11-33): one persisted scoring outcome,
keyed by a unique pick reference. -/
structure ScoreRow where
  id : Nat
  pick_id : Nat
  user_id : Nat
  points : Int
  margin : Option Frac
  exact_match : Bool
  scoring_metadata : List (String × JValue)

/-- Database state visible to one score_event call: the four tables it
touches. -/
structure Db where
  events : List Event
  results : List Result
  picks : List Pick
  scores : List ScoreRow

/-- The summary dict returned by score_event (service.py lines 124-130),
without the echoed event id. -/
structure RunStats where
  picks_scored : Nat
  scores_created : Nat
  scores_updated : Nat
  total_points : Int
  deriving DecidableEq

/-- `results_by_type.get(prop_type, [])` for the dict built by
ScoringService._organize_results (service.py lines 309-326): grouping then
looking up one key equals filtering, in the same order. -/
def resultsForType (event_results : List Result) (pt : PropType) : List Result :=
  event_results.filter (fun r => r.prop_type == pt)

/-- `actual_result.result_metadata.get("finishing_order", {})` guarded by
`if actual_result.result_metadata:` (service.py lines 208-211). -/
def finishing_order_of (r : Result) : List (String × Int) :=
  match r.result_metadata with
  | none => []
  | some rm => rm.finishing_order.getD []

/-- `actual_result.result_metadata.get("lap_times", {})` guarded the same way
(service.py lines 234-237). -/
def lap_times_of (r : Result) : List (String × Frac) :=
  match r.result_metadata with
  | none => []
  | some rm => rm.lap_times.getD []

/-- ScoringService._score_driver_position (service.py lines 193-218). -/
def _score_driver_position (pick : Pick) (results : List Result) :
    Except PyErr ScoringResult :=
  match parse_driver_code pick.prop_value with
  | .error e => .error e
  | .ok predicted_driver =>
    match results.head? with
    | none => .ok ⟨0, none, false, []⟩
    | some actual_result =>
      match parse_driver_code actual_result.actual_value with
      | .error e => .error e
      | .ok actual_driver =>
          .ok (score_driver_position predicted_driver actual_driver
                (finishing_order_of actual_result) pick.prop_type)

/-- ScoringService._score_fastest_lap (service.py lines 220-243). -/
def _score_fastest_lap (pick : Pick) (results : List Result) :
    Except PyErr ScoringResult :=
  match parse_driver_code pick.prop_value with
  | .error e => .error e
  | .ok predicted_driver =>
    match results.head? with
    | none => .ok ⟨0, none, false, []⟩
    | some actual_result =>
      match parse_driver_code actual_result.actual_value with
      | .error e => .error e
      | .ok actual_driver =>
          .ok (score_fastest_lap predicted_driver actual_driver
                (lap_times_of actual_result))

/-- ScoringService._score_time_prediction (service.py lines 245-259). -/
def _score_time_prediction (pick : Pick) (results : List Result) :
    Except PyErr ScoringResult :=
  match parse_time_value pick.prop_value with
  | .error e => .error e
  | .ok predicted_time =>
    match results.head? with
    | none => .ok ⟨0, none, false, []⟩
    | some actual_result =>
      match parse_time_value actual_result.actual_value with
      | .error e => .error e
      | .ok actual_time => score_lap_time predicted_time actual_time

/-- ScoringService._score_pit_window (service.py lines 261-275). -/
def _score_pit_window (pick : Pick) (results : List Result) :
    Except PyErr ScoringResult :=
  match parse_lap_number pick.prop_value with
  | .error e => .error e
  | .ok predicted_lap =>
    match results.head? with
    | none => .ok ⟨0, none, false, []⟩
    | some actual_result =>
      match parse_lap_number actual_result.actual_value with
      | .error e => .error e
      | .ok actual_lap => .ok (score_pit_window predicted_lap actual_lap)

/-- ScoringService._score_boolean (service.py lines 277-291);
parse_boolean_value is total, so this helper cannot raise. -/
def _score_boolean (pick : Pick) (results : List Result) :
    Except PyErr ScoringResult :=
  let predicted_value := parse_boolean_value pick.prop_value
  match results.head? with
  | none => .ok ⟨0, none, false, []⟩
  | some actual_result =>
      .ok (score_boolean_prediction predicted_value
            (parse_boolean_value actual_result.actual_value))

/-- ScoringService._score_count (service.py lines 293-307); it reuses
parse_lap_number for counts. -/
def _score_count (pick : Pick) (results : List Result) :
    Except PyErr ScoringResult :=
  match parse_lap_number pick.prop_value with
  | .error e => .error e
  | .ok predicted_count =>
    match results.head? with
    | none => .ok ⟨0, none, false, []⟩
    | some actual_result =>
      match parse_lap_number actual_result.actual_value with
      | .error e => .error e
      | .ok actual_count => .ok (score_count_prediction predicted_count actual_count)

/-- ScoringService._score_pick (service.py lines 132-191): pick out this
prop type's results (none available is a zero outcome, not an error), then
route to the algorithm family.  The source's final "unsupported prop type"
arm is unreachable because every current PropType member is routed. -/
def _score_pick (pick : Pick) (event_results : List Result) :
    Except PyErr ScoringResult :=
  let results := resultsForType event_results pick.prop_type
  if results.isEmpty then
    .ok ⟨0, none, false,
         [("error", .jstr "No results available for this prediction type")]⟩
  else
    match pick.prop_type with
    | .RACE_WINNER | .PODIUM_P1 | .PODIUM_P2 | .PODIUM_P3
    | .POLE_POSITION | .FIRST_RETIREMENT => _score_driver_position pick results
    | .FASTEST_LAP => _score_fastest_lap pick results
    | .LAP_TIME_PREDICTION | .SECTOR_TIME_PREDICTION => _score_time_prediction pick results
    | .PIT_WINDOW_START | .PIT_WINDOW_END => _score_pit_window pick results
    | .SAFETY_CAR => _score_boolean pick results
    | .TOTAL_PIT_STOPS => _score_count pick results

/-- The call `self.score_repo.get_by_pick_id(str(pick.id))` at service.py
line 82.  Neither ScoreRepository (repositories/score.py) nor its base class
BaseRepository (repositories/base.py) defines a method named get_by_pick_id,
so in Python this attribute access raises AttributeError on every pick,
inside the per-pick try block. -/
def score_repo_get_by_pick_id (_scores : List ScoreRow) (_pick_id : Nat) :
    Except PyErr (Option ScoreRow) :=
  .error .attributeError

/-- ScoreRepository.update via BaseRepository.update (repositories/base.py
lines 164-200) with the kwargs of service.py lines 86-92: fields whose value
is None (a None margin) are filtered out of the update, every other field is
written in place on the row with the given id. -/
def score_repo_update (scores : List ScoreRow) (id : Nat) (sr : ScoringResult) :
    List ScoreRow :=
  scores.map (fun row =>
    if row.id = id then
      { row with
          points := sr.points
          margin := match sr.margin with | none => row.margin | some m => some m
          exact_match := sr.exact_match
          scoring_metadata := sr.metadata }
    else row)

/-- ScoreRepository.create via BaseRepository.create with the kwargs of
service.py lines 96-103; the fresh uuid primary key is modelled by a counter
past the existing rows. -/
def score_repo_create (scores : List ScoreRow) (pick : Pick) (sr : ScoringResult) :
    List ScoreRow :=
  scores ++ [{ id := scores.length + 1
               pick_id := pick.id
               user_id := pick.user_id
               points := sr.points
               margin := sr.margin
               exact_match := sr.exact_match
               scoring_metadata := sr.metadata }]

/-- Accumulator of the orchestration loop: the three counters of service.py
lines 73-75 plus the Score table being edited. -/
structure LoopAcc where
  scores_created : Nat
  scores_updated : Nat
  total_points : Int
  scores : List ScoreRow

/-- Body of the per-pick try block (service.py lines 78-107): score the pick,
look up an existing Score by pick id, then update-or-create and bump the
counters.  Any error anywhere inside leaves the accumulator untouched
(the pick is skipped by the except clause). -/
def score_one_pick (event_results : List Result) (acc : LoopAcc) (pick : Pick) :
    Except PyErr LoopAcc :=
  match _score_pick pick event_results with
  | .error e => .error e
  | .ok score_result =>
    match score_repo_get_by_pick_id acc.scores pick.id with
    | .error e => .error e
    | .ok (some existing) =>
        .ok { scores_created := acc.scores_created
              scores_updated := acc.scores_updated + 1
              total_points := acc.total_points + score_result.points
              scores := score_repo_update acc.scores existing.id score_result }
    | .ok none =>
        .ok { scores_created := acc.scores_created + 1
              scores_updated := acc.scores_updated
              total_points := acc.total_points + score_result.points
              scores := score_repo_create acc.scores pick score_result }

/-- The `for pick in picks:` loop of score_event with its per-pick
`except Exception: continue` (service.py lines 77-111); the except also logs
the pick identity to stdout, which is not modelled. -/
def score_loop (event_results : List Result) : List Pick → LoopAcc → LoopAcc
  | [], acc => acc
  | pick :: rest, acc =>
      match score_one_pick event_results acc pick with
      | .ok acc' => score_loop event_results rest acc'
      | .error _ => score_loop event_results rest acc

/-- The `select(Result).where(Result.event_id == event_id)` load of
score_event (service.py lines 57-59). -/
def event_results_of (db : Db) (event_id : Nat) : List Result :=
  db.results.filter (fun r => r.event_id == event_id)

/-- The `select(Pick).where(Pick.event_id == event_id)` load of score_event
(service.py lines 68-70). -/
def event_picks_of (db : Db) (event_id : Nat) : List Pick :=
  db.picks.filter (fun p => p.event_id == event_id)

/-- ScoringService.score_event (service.py lines 38-130): validate the event
(missing or not-completed raises ValueError), load and require results
(raises ValueError when empty), load picks, run the loop, and commit.  A
returned error models a raise before the commit — the transaction rolls back
and no Score write becomes visible.  The audit row written just before the
commit is not modelled (no claim refers to it); the returned stats are the
summary dict minus the echoed event id. -/
def score_event (db : Db) (event_id : Nat) : Except PyErr (RunStats × Db) :=
  match db.events.find? (fun e => e.id == event_id) with
  | none => .error .valueError
  | some event =>
    if event.status ≠ EventStatus.completed then .error .valueError
    else if (event_results_of db event_id).isEmpty then .error .valueError
    else
      .ok (⟨(event_picks_of db event_id).length,
            (score_loop (event_results_of db event_id) (event_picks_of db event_id)
              ⟨0, 0, 0, db.scores⟩).scores_created,
            (score_loop (event_results_of db event_id) (event_picks_of db event_id)
              ⟨0, 0, 0, db.scores⟩).scores_updated,
            (score_loop (event_results_of db event_id) (event_picks_of db event_id)
              ⟨0, 0, 0, db.scores⟩).total_points⟩,
           { db with scores := (score_loop (event_results_of db event_id)
               (event_picks_of db event_id) ⟨0, 0, 0, db.scores⟩).scores })

/-- The finishing order used by every position result of the repository's own
scoring fixture (scripts/test_scoring.py, create_test_results). -/
def fixture_order : ResultMeta :=
  { finishing_order := some [("VER", 1), ("HAM", 2), ("LEC", 3), ("NOR", 4), ("SAI", 5)]
    lap_times := none }

/-- The lap-time metadata of the fixture's fastest-lap result. -/
def fixture_laps : ResultMeta :=
  { finishing_order := none
    lap_times := some [("VER", ⟨89123, 1000⟩), ("HAM", ⟨89456, 1000⟩),
                       ("LEC", ⟨89789, 1000⟩), ("NOR", ⟨90012, 1000⟩)] }

/-- The eight picks of the repository's own scoring fixture
(scripts/test_scoring.py, create_test_picks), for event 1 and user 1. -/
def fixture_picks : List Pick :=
  [⟨1, 1, 1, .RACE_WINNER, "VER"⟩,
   ⟨2, 1, 1, .PODIUM_P2, "LEC"⟩,
   ⟨3, 1, 1, .PODIUM_P3, "NOR"⟩,
   ⟨4, 1, 1, .FASTEST_LAP, "HAM"⟩,
   ⟨5, 1, 1, .LAP_TIME_PREDICTION, "90.5"⟩,
   ⟨6, 1, 1, .PIT_WINDOW_START, "15"⟩,
   ⟨7, 1, 1, .SAFETY_CAR, "true"⟩,
   ⟨8, 1, 1, .TOTAL_PIT_STOPS, "3"⟩]

/-- The eight matching results of the fixture (scripts/test_scoring.py,
create_test_results). -/
def fixture_results : List Result :=
  [⟨1, .RACE_WINNER, "VER", some fixture_order⟩,
   ⟨1, .PODIUM_P2, "HAM", some fixture_order⟩,
   ⟨1, .PODIUM_P3, "NOR", some fixture_order⟩,
   ⟨1, .FASTEST_LAP, "VER", some fixture_laps⟩,
   ⟨1, .LAP_TIME_PREDICTION, "90.8", some ⟨none, none⟩⟩,
   ⟨1, .PIT_WINDOW_START, "16", some ⟨none, none⟩⟩,
   ⟨1, .SAFETY_CAR, "true", some ⟨none, none⟩⟩,
   ⟨1, .TOTAL_PIT_STOPS, "4", some ⟨none, none⟩⟩]

/-- A completed event (id 1) holding the fixture's picks and results, with no
Score rows yet. -/
def fixture_db : Db :=
  { events := [⟨1, .completed⟩]
    results := fixture_results
    picks := fixture_picks
    scores := [] }

/-- Points a pick earns from the scoring algorithms alone (zero when scoring
raises), used to total the fixture independently of the persistence step. -/
def pick_points (pick : Pick) (event_results : List Result) : Int :=
  match _score_pick pick event_results with
  | .ok r => r.points
  | .error _ => 0

theorem score_one_pick_fails (event_results : List Result) (acc : LoopAcc) (pick : Pick) :
    ∃ e, score_one_pick event_results acc pick = .error e := by
  unfold score_one_pick
  cases h : _score_pick pick event_results with
  | error e => exact ⟨e, rfl⟩
  | ok r => exact ⟨.attributeError, rfl⟩

/-- Because the persistence lookup of every pick raises (see
score_repo_get_by_pick_id), the orchestration loop leaves its accumulator —
counters and Score rows alike — untouched. -/
theorem score_loop_id (event_results : List Result) (picks : List Pick) (acc : LoopAcc) :
    score_loop event_results picks acc = acc := by
  induction picks generalizing acc with
  | nil => rfl
  | cons p rest ih =>
      obtain ⟨e, he⟩ := score_one_pick_fails event_results acc p
      unfold score_loop
      rw [he]
      exact ih acc

/-- Shape of every successful score_event run: picks_scored counts all of the
event's picks, the other counters are zero and the Score table is unchanged. -/
theorem score_event_ok_inv (db : Db) (event_id : Nat) (s : RunStats) (db' : Db)
    (h : score_event db event_id = .ok (s, db')) :
    s.picks_scored = (event_picks_of db event_id).length ∧
    s.scores_created = 0 ∧ s.scores_updated = 0 ∧ s.total_points = 0 ∧
    db'.scores = db.scores := by
  unfold score_event at h
  split at h
  · simp at h
  · split at h
    · simp at h
    · split at h
      · simp at h
      · simp only [score_loop_id, Except.ok.injEq, Prod.mk.injEq] at h
        obtain ⟨hs', hdb'⟩ := h
        subst hs'
        subst hdb'
        exact ⟨rfl, rfl, rfl, rfl, rfl⟩

/-- A pick whose scoring raises: a lap-time prediction whose stored value
"abc" survives neither `json.loads` nor the fallback `float("abc")`. -/
def bad_pick : Pick := ⟨1, 1, 1, .LAP_TIME_PREDICTION, "abc"⟩

/-- A completed event whose single pick is bad_pick, with a matching
lap-time result present. -/
def bad_pick_db : Db :=
  { events := [⟨1, .completed⟩]
    results := [⟨1, .LAP_TIME_PREDICTION, "90.0", none⟩]
    picks := [bad_pick]
    scores := [] }

/-- C1: on the repository's own eight-pick fixture (scripts/test_scoring.py)
score_event returns picks_scored = 8 but scores_created = 0,
scores_updated = 0 and total_points = 0, leaving the Score table untouched:
every pick's persist step dies on the nonexistent
ScoreRepository.get_by_pick_id and is swallowed by the per-pick except.  The
scoring algorithms themselves value the eight picks at 10, 7, 10, 7, 10, 7,
10 and 6 points — total 67, matching neither the run's 0 nor the claimed 65
(the fixture's lap-time pick, 90.5 against 90.8, is a 0.33 % error inside
the strict <0.5 % tier worth 10 points, not the 8 the script's commentary
assumes). -/
theorem C1_fixture_run :
    score_event fixture_db 1 = .ok (⟨8, 0, 0, 0⟩, fixture_db) ∧
    fixture_picks.map (fun p => pick_points p fixture_results) =
      [10, 7, 10, 7, 10, 7, 10, 6] ∧
    (fixture_picks.map (fun p => pick_points p fixture_results)).sum = 67 :=
  ⟨rfl, rfl, rfl⟩

/-- C2: re-running score_event on the same event with unchanged Picks and
Results leaves the Score rows of the first run intact and returns
scores_created = 0 with scores_updated equal to the first run's
scores_created + scores_updated.  The property holds degenerately: because
ScoreRepository.get_by_pick_id does not exist, no run ever creates or
updates a Score row, so both runs count zero creates and zero updates over
an unchanged table. -/
theorem C2_rescore_idempotent (db : Db) (event_id : Nat) (s1 s2 : RunStats)
    (db1 db2 : Db)
    (h1 : score_event db event_id = .ok (s1, db1))
    (h2 : score_event db1 event_id = .ok (s2, db2)) :
    db2.scores = db1.scores ∧
    s2.scores_created = 0 ∧
    s2.scores_updated = s1.scores_created + s1.scores_updated := by
  obtain ⟨-, hc1, hu1, -, -⟩ := score_event_ok_inv db event_id s1 db1 h1
  obtain ⟨-, hc2, hu2, -, hs2⟩ := score_event_ok_inv db1 event_id s2 db2 h2
  refine ⟨hs2, hc2, ?_⟩
  omega

/-- Witness for C2 at the repository's own fixture: both runs return
⟨8, 0, 0, 0⟩ over an unchanged (empty) Score table. -/
theorem C2_rescore_idempotent_witness :
    fixture_db.scores = fixture_db.scores ∧
    (⟨8, 0, 0, 0⟩ : RunStats).scores_created = 0 ∧
    (⟨8, 0, 0, 0⟩ : RunStats).scores_updated =
      (⟨8, 0, 0, 0⟩ : RunStats).scores_created +
        (⟨8, 0, 0, 0⟩ : RunStats).scores_updated :=
  C2_rescore_idempotent fixture_db 1 ⟨8, 0, 0, 0⟩ ⟨8, 0, 0, 0⟩ fixture_db
    fixture_db rfl rfl

/-- C3 counterexample: with a single pick whose scoring raises ValueError,
the run still returns picks_scored = 1 — the claim's "counted as absent
from the run's scored count" fails, because score_event reports
picks_scored = len(picks) over all of the event's picks, failed ones
included. -/
theorem C3_scored_count_counterexample :
    _score_pick bad_pick bad_pick_db.results = .error .valueError ∧
    score_event bad_pick_db 1 = .ok (⟨1, 0, 0, 0⟩, bad_pick_db) :=
  ⟨rfl, rfl⟩

/-- C3 amended: a parse or algorithm failure on one pick is caught inside
the loop — the run does not abort, and the failing pick contributes nothing:
dropping it from the pick list leaves the loop's counters and Score rows
unchanged (its identity is also logged, to stdout, which is not modelled).
However the failed pick is still counted: picks_scored always equals the
total number of the event's picks, failures included. -/
theorem C3_per_pick_isolation (db : Db) (event_id : Nat) (event : Event)
    (pre post : List Pick) (bad : Pick) (err : PyErr)
    (hfind : db.events.find? (fun e => e.id == event_id) = some event)
    (hstatus : event.status = EventStatus.completed)
    (hres : (event_results_of db event_id).isEmpty = false)
    (hpicks : event_picks_of db event_id = pre ++ bad :: post)
    (hbad : _score_pick bad (event_results_of db event_id) = .error err) :
    (∃ s db', score_event db event_id = .ok (s, db') ∧
        s.picks_scored = pre.length + 1 + post.length) ∧
    (∀ acc, score_loop (event_results_of db event_id) (pre ++ bad :: post) acc =
        score_loop (event_results_of db event_id) (pre ++ post) acc) := by
  constructor
  · have hok : score_event db event_id = .ok
        (⟨(event_picks_of db event_id).length,
          (score_loop (event_results_of db event_id) (event_picks_of db event_id)
            ⟨0, 0, 0, db.scores⟩).scores_created,
          (score_loop (event_results_of db event_id) (event_picks_of db event_id)
            ⟨0, 0, 0, db.scores⟩).scores_updated,
          (score_loop (event_results_of db event_id) (event_picks_of db event_id)
            ⟨0, 0, 0, db.scores⟩).total_points⟩,
         { db with scores := (score_loop (event_results_of db event_id)
            (event_picks_of db event_id) ⟨0, 0, 0, db.scores⟩).scores }) := by
      unfold score_event
      simp only [hfind,
        if_neg (show ¬(event.status ≠ EventStatus.completed) from fun hne => hne hstatus),
        if_neg (show ¬((event_results_of db event_id).isEmpty = true) from by simp [hres])]
    refine ⟨_, _, hok, ?_⟩
    simp only [hpicks, List.length_append, List.length_cons]
    omega
  · intro acc
    rw [score_loop_id, score_loop_id]

/-- Witness for C3's amended statement at the concrete bad-pick event. -/
theorem C3_per_pick_isolation_witness :
    (∃ s db', score_event bad_pick_db 1 = .ok (s, db') ∧
        s.picks_scored = List.length ([] : List Pick) + 1 +
          List.length ([] : List Pick)) ∧
    (∀ acc, score_loop (event_results_of bad_pick_db 1)
        ([] ++ bad_pick :: []) acc =
      score_loop (event_results_of bad_pick_db 1) ([] ++ []) acc) :=
  C3_per_pick_isolation bad_pick_db 1 ⟨1, .completed⟩ [] [] bad_pick
    .valueError rfl rfl rfl rfl rfl

/-- C4: score_event raises before any Score write when the event is missing,
when its status is not completed, or when the event has no Result rows; an
event with zero picks is not an error and completes with all-zero counts and
an unchanged Score table.  A returned error models a raise before the
commit, so no write becomes visible. -/
theorem C4_preconditions (db : Db) (event_id : Nat) :
    (db.events.find? (fun e => e.id == event_id) = none →
        score_event db event_id = .error .valueError) ∧
    (∀ event, db.events.find? (fun e => e.id == event_id) = some event →
        event.status ≠ EventStatus.completed →
        score_event db event_id = .error .valueError) ∧
    (∀ event, db.events.find? (fun e => e.id == event_id) = some event →
        (event_results_of db event_id).isEmpty = true →
        score_event db event_id = .error .valueError) ∧
    (∀ event, db.events.find? (fun e => e.id == event_id) = some event →
        event.status = EventStatus.completed →
        (event_results_of db event_id).isEmpty = false →
        event_picks_of db event_id = [] →
        score_event db event_id = .ok (⟨0, 0, 0, 0⟩, db)) := by
  refine ⟨?_, ?_, ?_, ?_⟩
  · intro h
    unfold score_event
    rw [h]
  · intro ev hf hs
    unfold score_event
    simp only [hf, if_pos hs]
  · intro ev hf hr
    unfold score_event
    by_cases hs : ev.status ≠ EventStatus.completed
    · simp only [hf, if_pos hs]
    · simp only [hf, if_neg hs, if_pos hr]
  · intro ev hf hs hr hp
    unfold score_event
    simp only [hf,
      if_neg (show ¬(ev.status ≠ EventStatus.completed) from fun hne => hne hs),
      if_neg (show ¬((event_results_of db event_id).isEmpty = true) from by simp [hr]),
      hp]
    rfl

/-- Witness for C4 at four one-event databases: a missing event, a live
event, a completed event with no results, and a completed event with results
but no picks. -/
theorem C4_preconditions_witness :
    score_event ⟨[], [], [], []⟩ 1 = .error .valueError ∧
    score_event ⟨[⟨1, .live⟩], [⟨1, .SAFETY_CAR, "true", none⟩], [], []⟩ 1 =
      .error .valueError ∧
    score_event ⟨[⟨1, .completed⟩], [], [], []⟩ 1 = .error .valueError ∧
    score_event ⟨[⟨1, .completed⟩], [⟨1, .SAFETY_CAR, "true", none⟩], [], []⟩ 1 =
      .ok (⟨0, 0, 0, 0⟩, ⟨[⟨1, .completed⟩], [⟨1, .SAFETY_CAR, "true", none⟩], [], []⟩) :=
  ⟨(C4_preconditions ⟨[], [], [], []⟩ 1).1 rfl,
   (C4_preconditions _ 1).2.1 ⟨1, .live⟩ rfl (by decide),
   (C4_preconditions _ 1).2.2.1 ⟨1, .completed⟩ rfl rfl,
   (C4_preconditions _ 1).2.2.2 ⟨1, .completed⟩ rfl rfl rfl rfl⟩

theorem Frac.lt_true_of {d c : Frac} (hd : d.Pos) (hc : c.Pos)
    (h : d.toRat < c.toRat) : Frac.lt d c = true :=
  (Frac.lt_iff hd hc).mpr h

theorem Frac.lt_false_of_not {d c : Frac} (hd : d.Pos) (hc : c.Pos)
    (h : ¬ d.toRat < c.toRat) : Frac.lt d c = false := by
  rw [Bool.eq_false_iff]
  intro hlt
  exact h ((Frac.lt_iff hd hc).mp hlt)

/-- The expected finishing position exactly as the claim words it: 1 for
winner/P1/pole, 2 for P2, 3 for P3, and 1 for any other category. -/
def claimed_expected_position (pt : PropType) : Int :=
  match pt with
  | .PODIUM_P2 => 2
  | .PODIUM_P3 => 3
  | _ => 1

theorem expected_position_agrees (pt : PropType) :
    get_expected_position pt = claimed_expected_position pt := by
  cases pt <;> rfl

/-- C5: position-based scoring: an exact driver match is 10 points, margin 0,
exact_match true; a predicted driver absent from the finishing-order mapping
is 0 points with margin fixed at 20 and metadata flagging "dnf"; otherwise,
with diff the distance between the predicted driver's actual position and
the claim's expected position for the prop, the points are 7, 4, 2 for diff
1, 2, 3 and otherwise 0, with margin equal to diff. -/
theorem C5_position_rules (predicted actual : String)
    (all_results : List (String × Int)) (pt : PropType) :
    (predicted = actual →
      (score_driver_position predicted actual all_results pt).points = 10 ∧
      (∃ m, (score_driver_position predicted actual all_results pt).margin = some m ∧
        m.toRat = 0) ∧
      (score_driver_position predicted actual all_results pt).exact_match = true) ∧
    (predicted ≠ actual → all_results.lookup predicted = none →
      (score_driver_position predicted actual all_results pt).points = 0 ∧
      (∃ m, (score_driver_position predicted actual all_results pt).margin = some m ∧
        m.toRat = 20) ∧
      (score_driver_position predicted actual all_results pt).exact_match = false ∧
      (score_driver_position predicted actual all_results pt).metadata.lookup "result" =
        some (.jstr "dnf")) ∧
    (∀ pos : Int, predicted ≠ actual → all_results.lookup predicted = some pos →
      (score_driver_position predicted actual all_results pt).points =
        (if |pos - claimed_expected_position pt| = 1 then 7
         else if |pos - claimed_expected_position pt| = 2 then 4
         else if |pos - claimed_expected_position pt| = 3 then 2 else 0) ∧
      (∃ m, (score_driver_position predicted actual all_results pt).margin = some m ∧
        m.toRat = ((|pos - claimed_expected_position pt| : Int) : ℚ)) ∧
      (score_driver_position predicted actual all_results pt).exact_match = false) := by
  refine ⟨?_, ?_, ?_⟩
  · intro he
    refine ⟨?_, ⟨⟨0, 1⟩, ?_, ?_⟩, ?_⟩
    · simp [score_driver_position, if_pos he, EXACT_MATCH_POINTS]
    · simp [score_driver_position, if_pos he]
    · norm_num [Frac.toRat]
    · simp [score_driver_position, if_pos he]
  · intro hne hl
    refine ⟨?_, ⟨⟨20, 1⟩, ?_, ?_⟩, ?_, ?_⟩
    · simp [score_driver_position, if_neg hne, hl]
    · simp [score_driver_position, if_neg hne, hl]
    · norm_num [Frac.toRat]
    · simp [score_driver_position, if_neg hne, hl]
    · simp [score_driver_position, if_neg hne, hl, List.lookup]
  · intro pos hne hl
    refine ⟨?_, ⟨⟨|pos - claimed_expected_position pt|, 1⟩, ?_, ?_⟩, ?_⟩
    · simp [score_driver_position, if_neg hne, hl, NEAR_MATCH_POINTS,
        expected_position_agrees]
    · simp [score_driver_position, if_neg hne, hl, expected_position_agrees]
    · simp [Frac.toRat]
    · simp [score_driver_position, if_neg hne, hl]

/-- Witness for C5 on the three branches: an exact winner pick, a DNF pick,
and a P2 pick whose driver finished P3. -/
theorem C5_position_rules_witness :
    (score_driver_position "VER" "VER" [] .RACE_WINNER).points = 10 ∧
    (score_driver_position "ABC" "VER" [("VER", 1)] .RACE_WINNER).metadata.lookup "result" =
      some (.jstr "dnf") ∧
    (score_driver_position "HAM" "VER" [("HAM", 3)] .PODIUM_P2).points = 7 := by
  refine ⟨((C5_position_rules "VER" "VER" [] .RACE_WINNER).1 rfl).1,
    ((C5_position_rules "ABC" "VER" [("VER", 1)] .RACE_WINNER).2.1 (by decide) rfl).2.2.2,
    ?_⟩
  have h := ((C5_position_rules "HAM" "VER" [("HAM", 3)] .PODIUM_P2).2.2 3 (by decide) rfl).1
  rw [h]
  decide

/-- C10: score_lap_time divides the absolute time difference by the actual
time with no zero guard, so a zero actual time raises ZeroDivisionError for
every prediction, and any nonzero actual time returns an outcome. -/
theorem C10_division_by_zero (p a : Frac) (ha : a.Pos) :
    (a.toRat = 0 → score_lap_time p a = .error .zeroDivisionError) ∧
    (a.toRat ≠ 0 → ∃ r, score_lap_time p a = .ok r) := by
  constructor
  · intro h
    simp only [score_lap_time]
    rw [if_pos ((Frac.isZero_iff ha).mpr h)]
  · intro h
    simp only [score_lap_time]
    rw [if_neg (fun hz => h ((Frac.isZero_iff ha).mp hz))]
    exact ⟨_, rfl⟩

/-- Witness for C10: predicting 90 s against an actual 0 s raises, against an
actual 2 s succeeds. -/
theorem C10_division_by_zero_witness :
    score_lap_time ⟨90, 1⟩ ⟨0, 1⟩ = .error .zeroDivisionError ∧
    (∃ r, score_lap_time ⟨90, 1⟩ ⟨2, 1⟩ = .ok r) :=
  ⟨(C10_division_by_zero ⟨90, 1⟩ ⟨0, 1⟩ (by decide)).1 (by norm_num [Frac.toRat]),
   (C10_division_by_zero ⟨90, 1⟩ ⟨2, 1⟩ (by decide)).2 (by norm_num [Frac.toRat])⟩

/-- C6: for every algorithm except the timed-value prediction, a true exact
flag forces margin 0; for the timed-value prediction the exact flag holds
exactly when the absolute time difference is below 0.01 s, independently of
the percentage tier — an outcome can score points without the flag, and can
carry the flag with a nonzero margin. -/
theorem C6_exact_flag_semantics :
    (∀ pd ad m pt, (score_driver_position pd ad m pt).exact_match = true →
      ∃ f, (score_driver_position pd ad m pt).margin = some f ∧ f.toRat = 0) ∧
    (∀ pd ad times, (score_fastest_lap pd ad times).exact_match = true →
      ∃ f, (score_fastest_lap pd ad times).margin = some f ∧ f.toRat = 0) ∧
    (∀ p a : Int, (score_pit_window p a).exact_match = true →
      ∃ f, (score_pit_window p a).margin = some f ∧ f.toRat = 0) ∧
    (∀ p a : Bool, (score_boolean_prediction p a).exact_match = true →
      ∃ f, (score_boolean_prediction p a).margin = some f ∧ f.toRat = 0) ∧
    (∀ p a : Int, (score_count_prediction p a).exact_match = true →
      ∃ f, (score_count_prediction p a).margin = some f ∧ f.toRat = 0) ∧
    (∀ p a r, p.Pos → a.Pos → score_lap_time p a = .ok r →
      (r.exact_match = true ↔ |p.toRat - a.toRat| < 1 / 100)) ∧
    (∃ p a r, p.Pos ∧ a.Pos ∧ score_lap_time p a = .ok r ∧
      r.points > 0 ∧ r.exact_match = false) ∧
    (∃ p a r, p.Pos ∧ a.Pos ∧ score_lap_time p a = .ok r ∧
      r.exact_match = true ∧ ∃ f, r.margin = some f ∧ f.toRat ≠ 0) := by
  refine ⟨?_, ?_, ?_, ?_, ?_, ?_, ?_, ?_⟩
  · intro pd ad m pt h
    by_cases he : pd = ad
    · exact ⟨⟨0, 1⟩, by simp [score_driver_position, if_pos he], by norm_num [Frac.toRat]⟩
    · exfalso
      cases hl : List.lookup pd m with
      | none => simp [score_driver_position, if_neg he, hl] at h
      | some pos => simp [score_driver_position, if_neg he, hl] at h
  · intro pd ad times h
    by_cases he : pd = ad
    · exact ⟨⟨0, 1⟩, by simp [score_fastest_lap, if_pos he], by norm_num [Frac.toRat]⟩
    · exfalso
      cases h1 : List.lookup pd times with
      | none =>
          cases h2 : List.lookup ad times with
          | none => simp [score_fastest_lap, if_neg he, h1, h2] at h
          | some ta => simp [score_fastest_lap, if_neg he, h1, h2] at h
      | some tp =>
          cases h2 : List.lookup ad times with
          | none => simp [score_fastest_lap, if_neg he, h1, h2] at h
          | some ta => simp [score_fastest_lap, if_neg he, h1, h2] at h
  · intro p a h
    refine ⟨⟨|p - a|, 1⟩, by simp [score_pit_window], ?_⟩
    by_cases h0 : |p - a| = 0
    · rw [h0]
      norm_num [Frac.toRat]
    · exfalso
      simp only [score_pit_window, if_neg h0] at h
      split_ifs at h
  · intro p a h
    have hpa : p = a := of_decide_eq_true (by simpa [score_boolean_prediction] using h)
    refine ⟨⟨0, 1⟩, ?_, by norm_num [Frac.toRat]⟩
    simp [score_boolean_prediction, hpa]
  · intro p a h
    refine ⟨⟨|p - a|, 1⟩, by simp [score_count_prediction], ?_⟩
    by_cases h0 : |p - a| = 0
    · rw [h0]
      norm_num [Frac.toRat]
    · exfalso
      simp only [score_count_prediction, if_neg h0] at h
      split_ifs at h
  · intro p a r hp ha hok
    simp only [score_lap_time] at hok
    by_cases hz : a.isZero = true
    · rw [if_pos hz] at hok
      simp at hok
    · rw [if_neg hz] at hok
      simp only [Except.ok.injEq] at hok
      subst hok
      show Frac.lt ((p.sub a).fabs) ⟨1, 100⟩ = true ↔ _
      rw [Frac.lt_iff (Frac.pos_fabs (Frac.pos_sub hp ha)) (by decide),
        Frac.toRat_fabs (Frac.pos_sub hp ha), Frac.toRat_sub hp ha]
      norm_num [Frac.toRat]
  · exact ⟨⟨99, 1⟩, ⟨100, 1⟩,
      ⟨6, some ⟨1, 1⟩, false,
        [("predicted_time", .jfloat ⟨99, 1⟩), ("actual_time", .jfloat ⟨100, 1⟩),
         ("time_diff", .jfloat ⟨1, 1⟩), ("percentage_error", .jfloat ⟨100, 100⟩)]⟩,
      by decide, by decide, rfl, by decide, rfl⟩
  · exact ⟨⟨100005, 1000⟩, ⟨100, 1⟩,
      ⟨10, some ⟨5, 1000⟩, true,
        [("predicted_time", .jfloat ⟨100005, 1000⟩), ("actual_time", .jfloat ⟨100, 1⟩),
         ("time_diff", .jfloat ⟨5, 1000⟩), ("percentage_error", .jfloat ⟨500, 100000⟩)]⟩,
      by decide, by decide, rfl, rfl, ⟨⟨5, 1000⟩, rfl, by norm_num [Frac.toRat]⟩⟩

/-- Witness for C6: a correct boolean pick and an exact pit-window pick both
carry margin 0 with their exact flag; a concrete timed-value outcome obeys
the epsilon equivalence. -/
theorem C6_exact_flag_semantics_witness :
    (∃ f, (score_boolean_prediction true true).margin = some f ∧ f.toRat = 0) ∧
    (∃ f, (score_pit_window 22 22).margin = some f ∧ f.toRat = 0) ∧
    (∃ r, score_lap_time ⟨9, 1⟩ ⟨10, 1⟩ = .ok r ∧
      (r.exact_match = true ↔ |(⟨9, 1⟩ : Frac).toRat - (⟨10, 1⟩ : Frac).toRat| < 1 / 100)) := by
  refine ⟨C6_exact_flag_semantics.2.2.2.1 true true rfl,
    C6_exact_flag_semantics.2.2.1 22 22 rfl,
    ⟨⟨0, some ⟨1, 1⟩, false,
      [("predicted_time", .jfloat ⟨9, 1⟩), ("actual_time", .jfloat ⟨10, 1⟩),
       ("time_diff", .jfloat ⟨1, 1⟩), ("percentage_error", .jfloat ⟨100, 10⟩)]⟩,
     rfl, ?_⟩⟩
  exact C6_exact_flag_semantics.2.2.2.2.2.1 ⟨9, 1⟩ ⟨10, 1⟩ _ (by decide) (by decide) rfl

/-- C7: the fastest-lap and timed-value tier thresholds are exclusive on the
upper bound: a fastest-lap time difference of exactly 0.5, 1.0 or 2.0
seconds falls into the next lower tier (4, 2 and 0 points — in particular
0.5 s earns 4, not 7), and a timed-value percentage error of exactly 0.5,
1.0, 2.0, 3.0 or 5.0 percent likewise earns 8, 6, 4, 2 and 0 points. -/
theorem C7_boundary_tiers :
    (∀ pd ad (times : List (String × Frac)) tp ta,
      pd ≠ ad → times.lookup pd = some tp → times.lookup ad = some ta →
      tp.Pos → ta.Pos →
      ((|tp.toRat - ta.toRat| = 1 / 2 → (score_fastest_lap pd ad times).points = 4) ∧
       (|tp.toRat - ta.toRat| = 1 → (score_fastest_lap pd ad times).points = 2) ∧
       (|tp.toRat - ta.toRat| = 2 → (score_fastest_lap pd ad times).points = 0))) ∧
    (∀ p a r, p.Pos → a.Pos → score_lap_time p a = .ok r →
      ((|p.toRat - a.toRat| / a.toRat * 100 = 1 / 2 → r.points = 8) ∧
       (|p.toRat - a.toRat| / a.toRat * 100 = 1 → r.points = 6) ∧
       (|p.toRat - a.toRat| / a.toRat * 100 = 2 → r.points = 4) ∧
       (|p.toRat - a.toRat| / a.toRat * 100 = 3 → r.points = 2) ∧
       (|p.toRat - a.toRat| / a.toRat * 100 = 5 → r.points = 0))) := by
  constructor
  · intro pd ad times tp ta hne h1 h2 hp ht
    have hdpos : ((tp.sub ta).fabs).Pos := Frac.pos_fabs (Frac.pos_sub hp ht)
    have hd : ((tp.sub ta).fabs).toRat = |tp.toRat - ta.toRat| := by
      rw [Frac.toRat_fabs (Frac.pos_sub hp ht), Frac.toRat_sub hp ht]
    refine ⟨?_, ?_, ?_⟩
    · intro hv
      have e1 : Frac.lt ((tp.sub ta).fabs) ⟨1, 2⟩ = false :=
        Frac.lt_false_of_not hdpos (by decide) (by rw [hd, hv]; norm_num [Frac.toRat])
      have e2 : Frac.lt ((tp.sub ta).fabs) ⟨1, 1⟩ = true :=
        Frac.lt_true_of hdpos (by decide) (by rw [hd, hv]; norm_num [Frac.toRat])
      simp [score_fastest_lap, if_neg hne, h1, h2, e1, e2]
    · intro hv
      have e1 : Frac.lt ((tp.sub ta).fabs) ⟨1, 2⟩ = false :=
        Frac.lt_false_of_not hdpos (by decide) (by rw [hd, hv]; norm_num [Frac.toRat])
      have e2 : Frac.lt ((tp.sub ta).fabs) ⟨1, 1⟩ = false :=
        Frac.lt_false_of_not hdpos (by decide) (by rw [hd, hv]; norm_num [Frac.toRat])
      have e3 : Frac.lt ((tp.sub ta).fabs) ⟨2, 1⟩ = true :=
        Frac.lt_true_of hdpos (by decide) (by rw [hd, hv]; norm_num [Frac.toRat])
      simp [score_fastest_lap, if_neg hne, h1, h2, e1, e2, e3]
    · intro hv
      have e1 : Frac.lt ((tp.sub ta).fabs) ⟨1, 2⟩ = false :=
        Frac.lt_false_of_not hdpos (by decide) (by rw [hd, hv]; norm_num [Frac.toRat])
      have e2 : Frac.lt ((tp.sub ta).fabs) ⟨1, 1⟩ = false :=
        Frac.lt_false_of_not hdpos (by decide) (by rw [hd, hv]; norm_num [Frac.toRat])
      have e3 : Frac.lt ((tp.sub ta).fabs) ⟨2, 1⟩ = false :=
        Frac.lt_false_of_not hdpos (by decide) (by rw [hd, hv]; norm_num [Frac.toRat])
      simp [score_fastest_lap, if_neg hne, h1, h2, e1, e2, e3]
  · intro p a r hp ha hok
    simp only [score_lap_time] at hok
    by_cases hz : a.isZero = true
    · rw [if_pos hz] at hok
      simp at hok
    · rw [if_neg hz] at hok
      simp only [Except.ok.injEq] at hok
      subst hok
      have hdpos : ((p.sub a).fabs).Pos := Frac.pos_fabs (Frac.pos_sub hp ha)
      have hnum : a.num ≠ 0 := fun h0 => hz (by simp [Frac.isZero, h0])
      have hppos : ((((p.sub a).fabs).div a).mulInt 100).Pos :=
        Frac.pos_mulInt (Frac.pos_div hdpos hnum) 100
      have hpct : ((((p.sub a).fabs).div a).mulInt 100).toRat =
          |p.toRat - a.toRat| / a.toRat * 100 := by
        rw [Frac.toRat_mulInt (Frac.pos_div hdpos hnum), Frac.toRat_div,
          Frac.toRat_fabs (Frac.pos_sub hp ha), Frac.toRat_sub hp ha]
        norm_num
      refine ⟨?_, ?_, ?_, ?_, ?_⟩
      · intro hv
        have e1 : Frac.lt ((((p.sub a).fabs).div a).mulInt 100) ⟨1, 2⟩ = false :=
          Frac.lt_false_of_not hppos (by decide) (by rw [hpct, hv]; norm_num [Frac.toRat])
        have e2 : Frac.lt ((((p.sub a).fabs).div a).mulInt 100) ⟨1, 1⟩ = true :=
          Frac.lt_true_of hppos (by decide) (by rw [hpct, hv]; norm_num [Frac.toRat])
        simp [e1, e2]
      · intro hv
        have e1 : Frac.lt ((((p.sub a).fabs).div a).mulInt 100) ⟨1, 2⟩ = false :=
          Frac.lt_false_of_not hppos (by decide) (by rw [hpct, hv]; norm_num [Frac.toRat])
        have e2 : Frac.lt ((((p.sub a).fabs).div a).mulInt 100) ⟨1, 1⟩ = false :=
          Frac.lt_false_of_not hppos (by decide) (by rw [hpct, hv]; norm_num [Frac.toRat])
        have e3 : Frac.lt ((((p.sub a).fabs).div a).mulInt 100) ⟨2, 1⟩ = true :=
          Frac.lt_true_of hppos (by decide) (by rw [hpct, hv]; norm_num [Frac.toRat])
        simp [e1, e2, e3]
      · intro hv
        have e1 : Frac.lt ((((p.sub a).fabs).div a).mulInt 100) ⟨1, 2⟩ = false :=
          Frac.lt_false_of_not hppos (by decide) (by rw [hpct, hv]; norm_num [Frac.toRat])
        have e2 : Frac.lt ((((p.sub a).fabs).div a).mulInt 100) ⟨1, 1⟩ = false :=
          Frac.lt_false_of_not hppos (by decide) (by rw [hpct, hv]; norm_num [Frac.toRat])
        have e3 : Frac.lt ((((p.sub a).fabs).div a).mulInt 100) ⟨2, 1⟩ = false :=
          Frac.lt_false_of_not hppos (by decide) (by rw [hpct, hv]; norm_num [Frac.toRat])
        have e4 : Frac.lt ((((p.sub a).fabs).div a).mulInt 100) ⟨3, 1⟩ = true :=
          Frac.lt_true_of hppos (by decide) (by rw [hpct, hv]; norm_num [Frac.toRat])
        simp [e1, e2, e3, e4]
      · intro hv
        have e1 : Frac.lt ((((p.sub a).fabs).div a).mulInt 100) ⟨1, 2⟩ = false :=
          Frac.lt_false_of_not hppos (by decide) (by rw [hpct, hv]; norm_num [Frac.toRat])
        have e2 : Frac.lt ((((p.sub a).fabs).div a).mulInt 100) ⟨1, 1⟩ = false :=
          Frac.lt_false_of_not hppos (by decide) (by rw [hpct, hv]; norm_num [Frac.toRat])
        have e3 : Frac.lt ((((p.sub a).fabs).div a).mulInt 100) ⟨2, 1⟩ = false :=
          Frac.lt_false_of_not hppos (by decide) (by rw [hpct, hv]; norm_num [Frac.toRat])
        have e4 : Frac.lt ((((p.sub a).fabs).div a).mulInt 100) ⟨3, 1⟩ = false :=
          Frac.lt_false_of_not hppos (by decide) (by rw [hpct, hv]; norm_num [Frac.toRat])
        have e5 : Frac.lt ((((p.sub a).fabs).div a).mulInt 100) ⟨5, 1⟩ = true :=
          Frac.lt_true_of hppos (by decide) (by rw [hpct, hv]; norm_num [Frac.toRat])
        simp [e1, e2, e3, e4, e5]
      · intro hv
        have e1 : Frac.lt ((((p.sub a).fabs).div a).mulInt 100) ⟨1, 2⟩ = false :=
          Frac.lt_false_of_not hppos (by decide) (by rw [hpct, hv]; norm_num [Frac.toRat])
        have e2 : Frac.lt ((((p.sub a).fabs).div a).mulInt 100) ⟨1, 1⟩ = false :=
          Frac.lt_false_of_not hppos (by decide) (by rw [hpct, hv]; norm_num [Frac.toRat])
        have e3 : Frac.lt ((((p.sub a).fabs).div a).mulInt 100) ⟨2, 1⟩ = false :=
          Frac.lt_false_of_not hppos (by decide) (by rw [hpct, hv]; norm_num [Frac.toRat])
        have e4 : Frac.lt ((((p.sub a).fabs).div a).mulInt 100) ⟨3, 1⟩ = false :=
          Frac.lt_false_of_not hppos (by decide) (by rw [hpct, hv]; norm_num [Frac.toRat])
        have e5 : Frac.lt ((((p.sub a).fabs).div a).mulInt 100) ⟨5, 1⟩ = false :=
          Frac.lt_false_of_not hppos (by decide) (by rw [hpct, hv]; norm_num [Frac.toRat])
        simp [e1, e2, e3, e4, e5]

/-- Witness for C7: a fastest-lap gap of exactly half a second earns 4
points, and a timed-value error of exactly half a percent earns 8 points. -/
theorem C7_boundary_tiers_witness :
    (score_fastest_lap "HAM" "VER" [("HAM", ⟨905, 10⟩), ("VER", ⟨90, 1⟩)]).points = 4 ∧
    (∃ r, score_lap_time ⟨1005, 10⟩ ⟨100, 1⟩ = .ok r ∧ r.points = 8) := by
  constructor
  · exact (C7_boundary_tiers.1 "HAM" "VER" [("HAM", ⟨905, 10⟩), ("VER", ⟨90, 1⟩)]
      ⟨905, 10⟩ ⟨90, 1⟩ (by decide) rfl rfl (by decide) (by decide)).1
      (by norm_num [Frac.toRat])
  · refine ⟨⟨8, some ⟨5, 10⟩, false,
      [("predicted_time", .jfloat ⟨1005, 10⟩), ("actual_time", .jfloat ⟨100, 1⟩),
       ("time_diff", .jfloat ⟨5, 10⟩), ("percentage_error", .jfloat ⟨500, 1000⟩)]⟩,
      rfl, ?_⟩
    exact (C7_boundary_tiers.2 ⟨1005, 10⟩ ⟨100, 1⟩ _ (by decide) (by decide) rfl).1
      (by norm_num [Frac.toRat])

/-- C8 counterexample: parse_driver_code does not trim JSON-carried values
and is not total.  A JSON object with a padded driver_code keeps its spaces
(" VER ", not "VER"); a JSON object whose driver_code is a number raises
AttributeError (the except clause catches only JSONDecodeError/ValueError);
and a bare JSON string input is returned upper-cased but untrimmed rather
than as the upper-cased, trimmed whole text. -/
theorem C8_parse_driver_counterexample :
    parse_driver_code "\x7b\"driver_code\": \" ver \"\x7d" = .ok " VER " ∧
    parse_driver_code "\x7b\"driver_code\": 1\x7d" = .error .attributeError ∧
    parse_driver_code "\" ver \"" = .ok " VER " :=
  ⟨rfl, rfl, rfl⟩

/-- C8 amended: parse_driver_code raises (AttributeError) exactly when the
input is a JSON object whose driver_code field is present and not a string;
a JSON object yields the upper-cased — untrimmed — driver_code string (empty
when absent); any other successfully decoded JSON value yields the
upper-cased string form of the value (untrimmed); only non-JSON text is
upper-cased and trimmed as a whole. -/
theorem C8_parse_driver_amended :
    (∀ s fields d, json_loads s = some (.jobj fields) →
      dictGet fields "driver_code" = some (.jstr d) →
      parse_driver_code s = .ok (pyUpper d)) ∧
    (∀ s fields, json_loads s = some (.jobj fields) →
      dictGet fields "driver_code" = none →
      parse_driver_code s = .ok "") ∧
    (∀ s fields v, json_loads s = some (.jobj fields) →
      dictGet fields "driver_code" = some v → (∀ d, v ≠ .jstr d) →
      parse_driver_code s = .error .attributeError) ∧
    (∀ s v, json_loads s = some v → (∀ fields, v ≠ .jobj fields) →
      parse_driver_code s = .ok (pyUpper (pyStr v))) ∧
    (∀ s, json_loads s = none →
      parse_driver_code s = .ok (pyStrip (pyUpper s))) := by
  refine ⟨?_, ?_, ?_, ?_, ?_⟩
  · intro s fields d h1 h2
    simp [parse_driver_code, h1, h2]
  · intro s fields h1 h2
    simp [parse_driver_code, h1, h2]
    rfl
  · intro s fields v h1 h2 hv
    cases v with
    | jstr d => exact absurd rfl (hv d)
    | jnull => simp [parse_driver_code, h1, h2]
    | jbool b => simp [parse_driver_code, h1, h2]
    | jint n => simp [parse_driver_code, h1, h2]
    | jfloat x => simp [parse_driver_code, h1, h2]
    | jarr l => simp [parse_driver_code, h1, h2]
    | jobj o => simp [parse_driver_code, h1, h2]
  · intro s v h1 hv
    cases v with
    | jobj fields => exact absurd rfl (hv fields)
    | jnull => simp [parse_driver_code, h1]
    | jbool b => simp [parse_driver_code, h1]
    | jint n => simp [parse_driver_code, h1]
    | jfloat x => simp [parse_driver_code, h1]
    | jstr t => simp [parse_driver_code, h1]
    | jarr l => simp [parse_driver_code, h1]
  · intro s h
    simp [parse_driver_code, h]

/-- Witness for C8's amended statement: one JSON-object input, one plain
JSON value and one non-JSON text. -/
theorem C8_parse_driver_amended_witness :
    parse_driver_code "\x7b\"driver_code\": \"ver\"\x7d" = .ok (pyUpper "ver") ∧
    parse_driver_code "true" = .ok (pyUpper (pyStr (.jbool true))) ∧
    parse_driver_code " ver " = .ok (pyStrip (pyUpper " ver ")) :=
  ⟨C8_parse_driver_amended.1 _ [("driver_code", .jstr "ver")] "ver" rfl rfl,
   C8_parse_driver_amended.2.2.2.1 "true" (.jbool true) rfl (fun fields => by simp),
   C8_parse_driver_amended.2.2.2.2 " ver " rfl⟩

/-- The condition under which C9 claims parse_boolean returns true, written
from the spec sentence: the input is a JSON object whose value field coerces
to true, or the input matches the truthy set case-insensitively. -/
def claimed_truthy (s : String) : Bool :=
  (match json_loads s with
   | some (.jobj fields) => pyBool ((dictGet fields "value").getD (.jbool false))
   | _ => false) ||
  truthyStrings.contains (pyLower s)

/-- C9 counterexample: the input "2" is neither a JSON object nor in the
truthy set, yet parse_boolean_value returns true, because any successfully
decoded JSON value — here the number 2 — goes through Python truthiness. -/
theorem C9_parse_boolean_counterexample :
    parse_boolean_value "2" = true ∧ claimed_truthy "2" = false :=
  ⟨rfl, rfl⟩

/-- C9 amended: parse_boolean returns true exactly when the decoded JSON
payload — the value field for objects (default false), the decoded value
itself otherwise — is truthy under Python coercion, or, for input that is
not valid JSON, when the lower-cased text is in the truthy set
{"true", "yes", "1"}; it never raises (it is a total function). -/
theorem C9_parse_boolean_amended :
    (∀ s fields, json_loads s = some (.jobj fields) →
      parse_boolean_value s = pyBool ((dictGet fields "value").getD (.jbool false))) ∧
    (∀ s v, json_loads s = some v → (∀ fields, v ≠ .jobj fields) →
      parse_boolean_value s = pyBool v) ∧
    (∀ s, json_loads s = none →
      parse_boolean_value s = truthyStrings.contains (pyLower s)) := by
  refine ⟨?_, ?_, ?_⟩
  · intro s fields h
    simp [parse_boolean_value, h]
  · intro s v h hnobj
    cases v with
    | jobj fields => exact absurd rfl (hnobj fields)
    | jnull => simp [parse_boolean_value, h]
    | jbool b => simp [parse_boolean_value, h]
    | jint n => simp [parse_boolean_value, h]
    | jfloat x => simp [parse_boolean_value, h]
    | jstr t => simp [parse_boolean_value, h]
    | jarr l => simp [parse_boolean_value, h]
  · intro s h
    simp [parse_boolean_value, h]

/-- Witness for C9's amended statement: an object input, a bare number and a
truthy plain word. -/
theorem C9_parse_boolean_amended_witness :
    parse_boolean_value "\x7b\"value\": 1\x7d" =
      pyBool ((dictGet [("value", .jint 1)] "value").getD (.jbool false)) ∧
    parse_boolean_value "2" = pyBool (.jint 2) ∧
    parse_boolean_value "yes" = truthyStrings.contains (pyLower "yes") :=
  ⟨C9_parse_boolean_amended.1 _ [("value", .jint 1)] rfl,
   C9_parse_boolean_amended.2.1 "2" (.jint 2) rfl (fun fields => by simp),
   C9_parse_boolean_amended.2.2 "yes" rfl⟩
